import Mathlib

/-!
# Email dashboard aggregation core: shallow embedding and verification

A shallow embedding of the aggregation / derivation logic of the
support-ticket dashboard (`src/js/dashboard.js`, `src/js/cases.js`,
`src/js/analytics.js`), together with proofs and refutations of the
specification's testable properties.

JavaScript numbers are modelled as `ℚ` (exact arithmetic), nullable fields
as `Option`, and database rows as structures carrying exactly the fields
the embedded function reads.  JavaScript string primitives
(`toLowerCase`, `trim`, `startsWith`) are modelled structurally over
`String.data` so that concrete instances evaluate by `decide`.
-/

namespace EmailDashboard

/-! ## JavaScript string primitives -/

/-- Model of `String.prototype.toLowerCase` (ASCII-relevant part). -/
def jsToLower (s : String) : String := ⟨s.data.map Char.toLower⟩

/-- Model of `String.prototype.trim`: strip leading and trailing whitespace. -/
def jsTrim (s : String) : String :=
  ⟨((s.data.dropWhile Char.isWhitespace).reverse.dropWhile Char.isWhitespace).reverse⟩

/-- Model of `String.prototype.startsWith`. -/
def jsStartsWith (s pat : String) : Bool := pat.data.isPrefixOf s.data

/-- `x.toLowerCase().trim()`, the normalisation applied to status and
priority strings throughout `dashboard.js`. -/
def lowerTrim (s : String) : String := jsTrim (jsToLower s)

/-! ## Metrics Aggregator (`dashboard.js`, `calculateTeamOverviewManually`) -/

/-- The case-row fields read by `calculateTeamOverviewManually`
(dashboard.js lines 619–693).  A `none` field models a `null`/absent
column in the fetched row. -/
structure AggCase where
  case_number : String
  status : Option String
  priority : Option String
  response_time_minutes : Option ℚ
deriving DecidableEq

/-- dashboard.js line 621: `const RESOLVED_STATUSES = ['resolved', 'closed']`. -/
def RESOLVED_STATUSES : List String := ["resolved", "closed"]

/-- dashboard.js lines 623–631: the resolved filter.  `if (!c.status) return
false;` then membership of the lower-cased, trimmed status in
`RESOLVED_STATUSES`.  (A JS empty-string status is falsy and returns false
on the first line; in this model `some ""` falls through to the membership
test, which also fails, giving the same verdict.) -/
def isResolvedCase (c : AggCase) : Bool :=
  match c.status with
  | none => false
  | some s => RESOLVED_STATUSES.contains (lowerTrim s)

/-- dashboard.js lines 638–646: the pending filter.  `if (!c.status) return
true;` then non-membership in `RESOLVED_STATUSES`. -/
def isPendingCase (c : AggCase) : Bool :=
  match c.status with
  | none => true
  | some s => !(RESOLVED_STATUSES.contains (lowerTrim s))

/-- dashboard.js line 620: `const totalCases = cases.length`. -/
def total_cases (cases : List AggCase) : Nat := cases.length

/-- dashboard.js line 633: `resolvedCases.length`. -/
def total_resolved (cases : List AggCase) : Nat := (cases.filter isResolvedCase).length

/-- dashboard.js line 690: `pendingCases.length`. -/
def total_pending (cases : List AggCase) : Nat := (cases.filter isPendingCase).length

/-- dashboard.js lines 651–656: the breakdown object has exactly the four
fixed keys `vip`, `urgent`, `normal`, `low`. -/
structure PendingBreakdown where
  vip : Nat
  urgent : Nat
  normal : Nat
  low : Nat
deriving DecidableEq

/-- One iteration of the `pendingCases.forEach` loop (dashboard.js lines
658–670): lower-case and trim the priority and increment the matching own
property of the breakdown object; a missing priority or a key not among the
four own properties only logs a warning and increments nothing. -/
def breakdownStep (pb : PendingBreakdown) (c : AggCase) : PendingBreakdown :=
  match c.priority with
  | none => pb
  | some s =>
    let p := lowerTrim s
    if p == "vip" then { pb with vip := pb.vip + 1 }
    else if p == "urgent" then { pb with urgent := pb.urgent + 1 }
    else if p == "normal" then { pb with normal := pb.normal + 1 }
    else if p == "low" then { pb with low := pb.low + 1 }
    else pb

/-- dashboard.js lines 651–670: the pending-by-priority breakdown. -/
def pending_breakdown (cases : List AggCase) : PendingBreakdown :=
  (cases.filter isPendingCase).foldl breakdownStep ⟨0, 0, 0, 0⟩

/-- Sum of the four surfaced bucket values. -/
def breakdownSum (pb : PendingBreakdown) : Nat := pb.vip + pb.urgent + pb.normal + pb.low

/-- Whether the case's lower-cased, trimmed priority equals the key `k`. -/
def keyIs (k : String) (c : AggCase) : Bool :=
  match c.priority with
  | none => false
  | some s => lowerTrim s == k

/-- Whether the case's priority normalises to one of the four fixed keys. -/
def recognizedPriority (c : AggCase) : Bool :=
  keyIs "vip" c || keyIs "urgent" c || keyIs "normal" c || keyIs "low" c

/-! ## SLA Evaluator (`dashboard.js` `isCaseOverdue`, duplicated in
`cases.js` lines 189–208 with identical semantics) -/

/-- The case fields read by `isCaseOverdue`.  `created_at` is the parsed
creation instant in milliseconds since the epoch (what `new
Date(c.created_at)` yields for arithmetic). -/
structure SlaCase where
  status : Option String
  priority : Option String
  created_at : ℚ
deriving DecidableEq

/-- The property keys a plain object literal inherits from
`Object.prototype`: bracket lookup with one of these keys returns a truthy
inherited value (a built-in function, or for `__proto__` the prototype
object itself), so an `|| default` guard after the lookup never fires. -/
def OBJECT_PROTOTYPE_KEYS : List String :=
  ["constructor", "hasOwnProperty", "isPrototypeOf", "propertyIsEnumerable",
   "toLocaleString", "toString", "valueOf", "__defineGetter__",
   "__defineSetter__", "__lookupGetter__", "__lookupSetter__", "__proto__"]

/-- The value produced by `slaHours[case_item.priority] || 24`: either a
numeric budget in hours, or a truthy non-numeric value inherited from the
prototype chain (a comparison against which is a NaN comparison, always
false). -/
inductive SlaBudget where
  | hours : ℚ → SlaBudget
  | inherited : SlaBudget
deriving DecidableEq

/-- dashboard.js lines 1117–1124 / cases.js lines 199–206:
`slaHours[case_item.priority] || 24`.  The four own properties of the
`slaHours` object literal yield their numeric budget.  Any other key falls
back to the prototype chain: a key of `Object.prototype` yields the truthy
inherited function/object, so the `|| 24` default does not apply; every
remaining key — a missing priority included, since `obj[null]` and
`obj[undefined]` look up the absent own keys `"null"` and `"undefined"` —
yields `undefined || 24 = 24`. -/
def slaHours : Option String → SlaBudget
  | some "vip" => .hours 4
  | some "urgent" => .hours 8
  | some "normal" => .hours 24
  | some "low" => .hours 48
  | some p => if OBJECT_PROTOTYPE_KEYS.contains p then .inherited else .hours 24
  | none => .hours 24

/-- dashboard.js lines 1107–1126 / cases.js lines 189–208: `isCaseOverdue`.
The `now` argument is the value of the `new Date()` sampled inside the
call, in milliseconds since the epoch.  When the looked-up `maxHours` is a
non-numeric inherited value, `hoursOpen > maxHours` coerces it to NaN and
the comparison is false. -/
def isCaseOverdue (c : SlaCase) (now : ℚ) : Bool :=
  if c.status == some "resolved" || c.status == some "closed" then false
  else
    let hoursOpen := (now - c.created_at) / (1000 * 60 * 60)
    match slaHours c.priority with
    | .hours maxHours => decide (hoursOpen > maxHours)
    | .inherited => false

/-- One render pass over a batch of case rows: each row's `isCaseOverdue`
call executes `new Date()` afresh, modelled by handing the i-th call the
i-th sample of a clock stream. -/
def slaEvalPass (clock : Nat → ℚ) : Nat → List SlaCase → List Bool
  | _, [] => []
  | i, c :: cs => isCaseOverdue c (clock i) :: slaEvalPass clock (i + 1) cs

/-! ## Time-Series Bucketer (`dashboard.js` `createCasesTimelineChart`
lines 1156–1170; same per-day scheme in `analytics.js` `createVolumeChart`
lines 250–277 with n = 30) -/

/-- A calendar date (proleptic Gregorian, as used by UTC date strings). -/
structure Date where
  year : Nat
  month : Nat
  day : Nat
deriving DecidableEq

def isLeapYear (y : Nat) : Bool := (y % 4 == 0 && y % 100 != 0) || y % 400 == 0

def daysInMonth (y m : Nat) : Nat :=
  if m == 2 then (if isLeapYear y then 29 else 28)
  else if m == 4 || m == 6 || m == 9 || m == 11 then 30
  else 31

def nextDay (d : Date) : Date :=
  if d.day < daysInMonth d.year d.month then ⟨d.year, d.month, d.day + 1⟩
  else if d.month < 12 then ⟨d.year, d.month + 1, 1⟩
  else ⟨d.year + 1, 1, 1⟩

/-- `date.setDate(date.getDate() + i)`: advance a calendar date by `i`
days. -/
def addDays (d : Date) : Nat → Date
  | 0 => d
  | n + 1 => nextDay (addDays d n)

def padTo2 (n : Nat) : String := if n < 10 then "0" ++ Nat.repr n else Nat.repr n

def padTo4 (n : Nat) : String :=
  if n < 10 then "000" ++ Nat.repr n
  else if n < 100 then "00" ++ Nat.repr n
  else if n < 1000 then "0" ++ Nat.repr n
  else Nat.repr n

/-- `date.toISOString().split('T')[0]`: the zero-padded UTC date string
`YYYY-MM-DD`. -/
def isoDateString (d : Date) : String :=
  padTo4 d.year ++ "-" ++ padTo2 d.month ++ "-" ++ padTo2 d.day

/-- The case fields read by the timeline loop: raw ISO timestamp strings. -/
structure TimelineCase where
  created_at : String
  resolved_at : Option String
deriving DecidableEq

/-- The filter predicate `c.created_at.startsWith(dateStr)`
(dashboard.js line 1163). -/
def createdOn (dateStr : String) (c : TimelineCase) : Bool :=
  jsStartsWith c.created_at dateStr

/-- The filter predicate `c.resolved_at && c.resolved_at.startsWith(dateStr)`
(dashboard.js lines 1164–1166). -/
def resolvedOn (dateStr : String) (c : TimelineCase) : Bool :=
  match c.resolved_at with
  | some r => jsStartsWith r dateStr
  | none => false

/-- dashboard.js lines 1156–1170: the bucket loop, parametrized by the
bucket count `n` (the source instantiates n = 7; analytics.js instantiates
the same per-day scheme with n = 30).  Bucket `i` carries the pair
(created count, resolved count) for the calendar day `start + i`. -/
def timelineBuckets (start : Date) (n : Nat) (cases : List TimelineCase) :
    List (Nat × Nat) :=
  (List.range n).map (fun i =>
    let dateStr := isoDateString (addDays start i)
    ((cases.filter (createdOn dateStr)).length,
     (cases.filter (resolvedOn dateStr)).length))

/-! ## Agent Performance Calculator (`dashboard.js`
`calculateAgentPerformanceManually`, class version lines 838–905) -/

/-- The case fields read by the per-agent computation. -/
structure PerfCase where
  agent_id : Option String
  status : Option String
  resolved_at : Option String
  response_time_minutes : Option ℚ
deriving DecidableEq

/-- dashboard.js line 855: `cases.filter(c => c.agent_id === agent.id)`. -/
def agentCases (agentId : String) (cases : List PerfCase) : List PerfCase :=
  cases.filter (fun c => c.agent_id == some agentId)

/-- dashboard.js lines 882–884: `agentCases.filter(c =>
c.response_time_minutes && c.response_time_minutes > 0).map(c =>
c.response_time_minutes)`. -/
def allResponseTimes (agentId : String) (cases : List PerfCase) : List ℚ :=
  ((agentCases agentId cases).filter (fun c =>
      match c.response_time_minutes with
      | some v => decide (v > 0)
      | none => false)).map (fun c => c.response_time_minutes.getD 0)

/-- dashboard.js lines 886–888: the all-time average response time,
`null` when no qualifying case exists. -/
def avg_response_time (agentId : String) (cases : List PerfCase) : Option ℚ :=
  let ts := allResponseTimes agentId cases
  if ts.length > 0 then some ((ts.foldl (· + ·) 0) / (ts.length : ℚ)) else none

/-- Follows the spec's words (§4.4): the list of positive
`response_time_minutes` values across all of the agent's cases. -/
def specPositiveResponseTimes (agentId : String) (cases : List PerfCase) : List ℚ :=
  (cases.filter (fun c => c.agent_id == some agentId)).filterMap
    (fun c => match c.response_time_minutes with
      | some v => if 0 < v then some v else none
      | none => none)

/-! ## Agent efficiency label (`dashboard.js` `calculateAgentEfficiency`,
class version lines 972–991; the prototype version at lines 155–174 is the
same decision tree reading `avg_response_time_today`) -/

/-- The agent-record fields read by `calculateAgentEfficiency`:
`status` plus the three derived performance numbers, each guarded in the
source by `|| 0` against a missing value. -/
structure AgentPerf where
  status : String
  resolved_today : Nat
  avg_response_time : Option ℚ
  pending_cases : Nat
deriving DecidableEq

/-- The `{label, class}` pair returned by `calculateAgentEfficiency`. -/
structure Efficiency where
  label : String
  cssClass : String
deriving DecidableEq

/-- dashboard.js lines 972–991: the efficiency decision tree, first match
wins. -/
def calculateAgentEfficiency (agent : AgentPerf) : Efficiency :=
  if agent.status == "offline" then ⟨"", ""⟩
  else
    let resolvedToday := agent.resolved_today
    let avgResponseTime := agent.avg_response_time.getD 0
    let pendingCases := agent.pending_cases
    if resolvedToday ≥ 5 ∧ avgResponseTime ≤ 60 ∧ pendingCases ≤ 3 then
      ⟨"High Performer", "text-green-600 bg-green-100"⟩
    else if resolvedToday ≥ 3 ∨ (avgResponseTime ≤ 120 ∧ pendingCases ≤ 5) then
      ⟨"Good", "text-blue-600 bg-blue-100"⟩
    else if pendingCases > 8 ∨ avgResponseTime > 180 then
      ⟨"Needs Support", "text-red-600 bg-red-100"⟩
    else ⟨"", ""⟩

/-! ## Status updates (`cases.js` `updateCaseStatus` lines 576–611,
`quickUpdateStatus` lines 616–631, `escalateCase` lines 636–661) -/

/-- A full case row, with timestamps in milliseconds since the epoch. -/
structure CaseRow where
  id : String
  case_number : String
  status : Option String
  priority : Option String
  created_at : ℚ
  resolved_at : Option ℚ
  first_response_at : Option ℚ
  response_time_minutes : Option ℚ
  agent_id : Option String
deriving DecidableEq

/-- An update payload sent to the persistence collaborator: `some` fields
are written, `none` fields are absent from the payload and left
untouched. -/
structure CaseUpdate where
  status : Option String := none
  priority : Option String := none
  resolved_at : Option ℚ := none
  first_response_at : Option ℚ := none
deriving DecidableEq

/-- The effect of `supabase.update(updates).eq('id', ...)` on the matched
row: fields present in the payload overwrite, all others are unchanged. -/
def applyUpdate (c : CaseRow) (u : CaseUpdate) : CaseRow :=
  { c with
    status := match u.status with | some s => some s | none => c.status
    priority := match u.priority with | some p => some p | none => c.priority
    resolved_at := match u.resolved_at with | some t => some t | none => c.resolved_at
    first_response_at :=
      match u.first_response_at with | some t => some t | none => c.first_response_at }

/-- cases.js lines 582–589: the payload built by `updateCaseStatus` —
always the new status, plus `resolved_at = now` exactly when the new
status is `'resolved'`, plus `first_response_at = now` exactly when it is
`'in_progress'`. -/
def updateCaseStatusFields (newStatus : String) (now : ℚ) : CaseUpdate :=
  { status := some newStatus
    resolved_at := if newStatus == "resolved" then some now else none
    first_response_at := if newStatus == "in_progress" then some now else none }

/-- cases.js lines 651–654: the payload built by `escalateCase` —
status `'escalated'` and priority `'urgent'` unless the current priority
is exactly `'vip'`, which is preserved. -/
def escalateCaseFields (currentPriority : Option String) : CaseUpdate :=
  { status := some "escalated"
    priority := some (if currentPriority == some "vip" then "vip" else "urgent") }

/-! ## Helper lemmas -/

lemma isPendingCase_eq_not_isResolvedCase (c : AggCase) :
    isPendingCase c = !isResolvedCase c := by
  unfold isPendingCase isResolvedCase
  cases c.status <;> simp

lemma breakdownStep_eq (pb : PendingBreakdown) (c : AggCase) :
    breakdownStep pb c =
      ⟨pb.vip + (if keyIs "vip" c then 1 else 0),
       pb.urgent + (if keyIs "urgent" c then 1 else 0),
       pb.normal + (if keyIs "normal" c then 1 else 0),
       pb.low + (if keyIs "low" c then 1 else 0)⟩ := by
  unfold breakdownStep keyIs
  cases c.priority with
  | none => simp
  | some s => split_ifs <;> simp_all

lemma foldl_breakdownStep (l : List AggCase) (pb : PendingBreakdown) :
    l.foldl breakdownStep pb =
      ⟨pb.vip + l.countP (keyIs "vip"), pb.urgent + l.countP (keyIs "urgent"),
       pb.normal + l.countP (keyIs "normal"), pb.low + l.countP (keyIs "low")⟩ := by
  induction l generalizing pb with
  | nil => simp
  | cons c l ih =>
    simp only [List.foldl_cons, ih, breakdownStep_eq, List.countP_cons,
      PendingBreakdown.mk.injEq]
    refine ⟨by omega, by omega, by omega, by omega⟩

lemma countP_and_add_countP_and_not {α : Type} (p q : α → Bool) (l : List α) :
    l.countP (fun a => p a && q a) + l.countP (fun a => p a && !q a) = l.countP p := by
  induction l with
  | nil => simp
  | cons a l ih =>
    simp only [List.countP_cons]
    cases hp : p a <;> cases hq : q a <;> simp [hp, hq] <;> omega

lemma countP_filter_eq {α : Type} (p q : α → Bool) (l : List α) :
    (l.filter q).countP p = l.countP (fun a => p a && q a) := by
  induction l with
  | nil => rfl
  | cons a l ih =>
    simp only [List.filter_cons]
    cases hq : q a <;> cases hp : p a <;> simp [hp, hq, List.countP_cons, ih]

lemma countP_four_keys (l : List AggCase) :
    l.countP (keyIs "vip") + l.countP (keyIs "urgent") + l.countP (keyIs "normal")
      + l.countP (keyIs "low") = l.countP recognizedPriority := by
  induction l with
  | nil => simp
  | cons c l ih =>
    simp only [List.countP_cons, recognizedPriority]
    rcases hc : c.priority with _ | s
    · simp only [keyIs, hc]
      simp
      omega
    · have hk : ∀ k, keyIs k c = (lowerTrim s == k) := by
        intro k
        simp [keyIs, hc]
      simp only [hk]
      by_cases h1 : lowerTrim s = "vip" <;> by_cases h2 : lowerTrim s = "urgent" <;>
        by_cases h3 : lowerTrim s = "normal" <;> by_cases h4 : lowerTrim s = "low" <;>
        simp_all <;> omega

lemma total_pending_eq_countP (cases : List AggCase) :
    total_pending cases = cases.countP isPendingCase := by
  unfold total_pending
  exact (List.countP_eq_length_filter _ _).symm

lemma breakdownSum_pending_breakdown (cases : List AggCase) :
    breakdownSum (pending_breakdown cases) =
      cases.countP (fun c => isPendingCase c && recognizedPriority c) := by
  unfold pending_breakdown breakdownSum
  rw [foldl_breakdownStep]
  simp only [Nat.zero_add]
  rw [countP_four_keys, countP_filter_eq]
  simp only [Bool.and_comm]

lemma pending_breakdown_fields (cases : List AggCase) :
    (pending_breakdown cases).vip = cases.countP (fun c => isPendingCase c && keyIs "vip" c) ∧
    (pending_breakdown cases).urgent =
      cases.countP (fun c => isPendingCase c && keyIs "urgent" c) ∧
    (pending_breakdown cases).normal =
      cases.countP (fun c => isPendingCase c && keyIs "normal" c) ∧
    (pending_breakdown cases).low = cases.countP (fun c => isPendingCase c && keyIs "low" c) := by
  unfold pending_breakdown
  rw [foldl_breakdownStep]
  simp only [Nat.zero_add, countP_filter_eq]
  refine ⟨?_, ?_, ?_, ?_⟩ <;> simp only [Bool.and_comm]

/-! ## Claims -/

/-- C1: for every collection of case records (arbitrary size, possibly
empty, statuses possibly null or arbitrarily cased/padded),
`total_resolved + total_pending = total_cases`: the resolved filter
(lower-cased, trimmed status in {resolved, closed}) and the pending filter
(everything else, null status included) are exact complements. -/
theorem total_resolved_add_total_pending (cases : List AggCase) :
    total_resolved cases + total_pending cases = total_cases cases := by
  unfold total_resolved total_pending total_cases
  induction cases with
  | nil => rfl
  | cons c cs ih =>
    simp only [List.filter_cons, List.length_cons, isPendingCase_eq_not_isResolvedCase]
    cases h : isResolvedCase c <;> simp [h] <;> omega

/-- C2 counterexample: the agent with `resolved_today = 5`,
`avg_response_time = 45`, `pending_cases = 9` does not receive the label
"Needs Support" — the second branch (`resolvedToday >= 3`) fires first and
returns "Good". -/
theorem efficiency_pending_nine_not_needs_support :
    (calculateAgentEfficiency ⟨"available", 5, some 45, 9⟩).label ≠ "Needs Support" := by
  decide

/-- C2 (amended): the agent with resolved_today = 5, avg_response_time =
45, pending_cases = 2 is labelled "High Performer"; the same agent with
pending_cases = 9 is labelled "Good" (not "Needs Support"), because the
second branch `resolved_today ≥ 3` matches before the pending-count
threshold is ever consulted. -/
theorem efficiency_example_labels :
    (calculateAgentEfficiency ⟨"available", 5, some 45, 2⟩).label = "High Performer" ∧
    (calculateAgentEfficiency ⟨"available", 5, some 45, 9⟩).label = "Good" := by
  decide

/-- C10: the escalate operation issues an update setting the status to
'escalated' and the priority to 'urgent', unless the current priority is
'vip', which is preserved. -/
theorem escalateCase_spec (c : CaseRow) :
    (applyUpdate c (escalateCaseFields c.priority)).status = some "escalated" ∧
    ((c.priority = some "vip" ∧
        (applyUpdate c (escalateCaseFields c.priority)).priority = some "vip") ∨
     (c.priority ≠ some "vip" ∧
        (applyUpdate c (escalateCaseFields c.priority)).priority = some "urgent")) := by
  unfold applyUpdate escalateCaseFields
  by_cases h : c.priority = some "vip" <;> simp [beq_iff_eq, h]

/-- C8 counterexample: the update issued for a transition to 'closed' does
not stamp `resolved_at` — on a row with `resolved_at = null` the field is
still null after the update, not the transition time. -/
theorem close_transition_does_not_stamp_resolved_at :
    (applyUpdate ⟨"id-1", "CASE-001", some "in_progress", some "normal", 0, none, none, none, none⟩
        (updateCaseStatusFields "closed" 100)).resolved_at ≠ some 100 := by
  decide

/-- C8 (amended): the status-update operation writes the new status;
`first_response_at` is stamped exactly on a transition to 'in_progress'
and `resolved_at` exactly on a transition to 'resolved' (a transition to
'closed' writes only the status); all other fields of the row are left
unchanged by the issued update. -/
theorem updateCaseStatus_effects (c : CaseRow) (newStatus : String) (now : ℚ) :
    (applyUpdate c (updateCaseStatusFields newStatus now)).status = some newStatus ∧
    (applyUpdate c (updateCaseStatusFields newStatus now)).resolved_at =
      (if newStatus = "resolved" then some now else c.resolved_at) ∧
    (applyUpdate c (updateCaseStatusFields newStatus now)).first_response_at =
      (if newStatus = "in_progress" then some now else c.first_response_at) ∧
    (applyUpdate c (updateCaseStatusFields newStatus now)).priority = c.priority ∧
    (applyUpdate c (updateCaseStatusFields newStatus now)).created_at = c.created_at ∧
    (applyUpdate c (updateCaseStatusFields newStatus now)).response_time_minutes =
      c.response_time_minutes ∧
    (applyUpdate c (updateCaseStatusFields newStatus now)).agent_id = c.agent_id ∧
    (applyUpdate c (updateCaseStatusFields newStatus now)).id = c.id ∧
    (applyUpdate c (updateCaseStatusFields newStatus now)).case_number = c.case_number := by
  unfold applyUpdate updateCaseStatusFields
  by_cases h1 : newStatus = "resolved" <;> by_cases h2 : newStatus = "in_progress" <;>
    simp [beq_iff_eq, h1, h2]

/-- C4 counterexample: a still-'new' case with the unrecognized priority
'toString', created 100 elapsed hours before the evaluation instant, is
not flagged overdue — the bracket lookup finds the inherited truthy
`Object.prototype.toString`, the `|| 24` default never applies, and the
comparison against the non-numeric "budget" is false — although the
claimed 24-hour default budget is exceeded more than fourfold. -/
theorem prototype_key_priority_never_overdue :
    isCaseOverdue ⟨some "new", some "toString", 0⟩ 360000000 = false ∧
    ((360000000 : ℚ) - 0) / (1000 * 60 * 60) > 24 := by
  constructor
  · decide
  · norm_num

/-- C4 (amended): the SLA overdue evaluator returns false whenever the
status is 'resolved' or 'closed', regardless of age; otherwise, when the
priority's lookup yields a numeric budget it returns true exactly when the
elapsed hours `(now − created_at) / 3600000` strictly exceed that budget —
the budgets being vip = 4, urgent = 8, normal = 24, low = 48, a missing
priority or an unrecognized string that is not an `Object.prototype` key
defaulting to 24 — but a priority string naming an `Object.prototype` key
short-circuits the `|| 24` default with a truthy inherited non-number and
the evaluator returns false regardless of age. -/
theorem isCaseOverdue_spec (c : SlaCase) (now : ℚ) :
    (c.status = some "resolved" ∨ c.status = some "closed" →
      isCaseOverdue c now = false) ∧
    (¬(c.status = some "resolved" ∨ c.status = some "closed") →
      (∀ h, slaHours c.priority = .hours h →
        (isCaseOverdue c now = true ↔ (now - c.created_at) / (1000 * 60 * 60) > h)) ∧
      (slaHours c.priority = .inherited → isCaseOverdue c now = false)) ∧
    slaHours (some "vip") = .hours 4 ∧ slaHours (some "urgent") = .hours 8 ∧
    slaHours (some "normal") = .hours 24 ∧ slaHours (some "low") = .hours 48 ∧
    slaHours none = .hours 24 ∧
    (∀ p : String, p ≠ "vip" → p ≠ "urgent" → p ≠ "normal" → p ≠ "low" →
      OBJECT_PROTOTYPE_KEYS.contains p = false → slaHours (some p) = .hours 24) ∧
    (∀ p : String, OBJECT_PROTOTYPE_KEYS.contains p = true →
      slaHours (some p) = .inherited) := by
  refine ⟨?_, ?_, rfl, rfl, rfl, rfl, rfl, ?_, ?_⟩
  · intro h
    unfold isCaseOverdue
    rcases h with h | h <;> simp [h]
  · intro hst
    push_neg at hst
    constructor
    · intro h hh
      unfold isCaseOverdue
      simp [beq_iff_eq, hst.1, hst.2, hh]
    · intro hh
      unfold isCaseOverdue
      simp [beq_iff_eq, hst.1, hst.2, hh]
  · intro p h1 h2 h3 h4 h5
    unfold slaHours
    split <;> simp_all
  · intro p hp
    unfold slaHours
    split <;> simp_all <;> revert hp <;> decide

/-- C4 witness: a vip case created at time 0 with status 'resolved' is not
overdue even 100000 hours later; the same case with status 'new' is
overdue at 5 elapsed hours; the unrecognized priority 'banana' gets the
24-hour budget, while the `Object.prototype` key 'valueOf' yields the
inherited non-numeric value. -/
theorem isCaseOverdue_spec_witness :
    isCaseOverdue ⟨some "resolved", some "vip", 0⟩ 360000000000 = false ∧
    isCaseOverdue ⟨some "new", some "vip", 0⟩ 18000000 = true ∧
    slaHours (some "banana") = .hours 24 ∧
    slaHours (some "valueOf") = .inherited := by
  refine ⟨(isCaseOverdue_spec ⟨some "resolved", some "vip", 0⟩ 360000000000).1 (Or.inl rfl),
    (((isCaseOverdue_spec ⟨some "new", some "vip", 0⟩ 18000000).2.1 (by decide)).1 4
      rfl).mpr (by norm_num),
    (isCaseOverdue_spec ⟨some "new", some "vip", 0⟩ 18000000).2.2.2.2.2.2.2.1 "banana"
      (by decide) (by decide) (by decide) (by decide) (by decide),
    (isCaseOverdue_spec ⟨some "new", some "vip", 0⟩ 18000000).2.2.2.2.2.2.2.2 "valueOf"
      (by decide)⟩

/-- C9 (code bug): each `isCaseOverdue` call samples its own `new Date()`,
so within one render pass two cases with identical status, priority and
created_at can receive different overdue verdicts when the wall clock
crosses the SLA boundary between the two calls: a batch of two identical
vip cases created at time 0, evaluated with clock samples at exactly 4
elapsed hours and at 5 elapsed hours, yields the verdicts
[false, true]. -/
theorem sla_pass_resamples_now_per_case :
    slaEvalPass (fun i : Nat => (14400000 : ℚ) + 3600000 * i) 0
      [⟨some "new", some "vip", 0⟩, ⟨some "new", some "vip", 0⟩] = [false, true] := by
  simp only [slaEvalPass]
  unfold isCaseOverdue
  norm_num [slaHours]
  decide

/-- C5: for every collection of cases, the sum of the four
pending-breakdown bucket values is at most total_pending, with equality
exactly when every pending case has a recognized priority (vip, urgent,
normal or low after lower-casing and trimming). -/
theorem breakdown_sum_le_total_pending (cases : List AggCase) :
    breakdownSum (pending_breakdown cases) ≤ total_pending cases ∧
    (breakdownSum (pending_breakdown cases) = total_pending cases ↔
      ∀ c ∈ cases, isPendingCase c = true → recognizedPriority c = true) := by
  have hsum := breakdownSum_pending_breakdown cases
  have hsplit := countP_and_add_countP_and_not isPendingCase recognizedPriority cases
  have htp := total_pending_eq_countP cases
  constructor
  · omega
  · rw [hsum, htp]
    constructor
    · intro h c hc hpend
      have h0 : cases.countP (fun c => isPendingCase c && !recognizedPriority c) = 0 := by
        omega
      rw [List.countP_eq_zero] at h0
      have hcc := h0 c hc
      simpa [hpend] using hcc
    · intro h
      have h0 : cases.countP (fun c => isPendingCase c && !recognizedPriority c) = 0 := by
        rw [List.countP_eq_zero]
        intro c hc
        simp only [Bool.and_eq_true, Bool.not_eq_true', not_and]
        intro hpend
        rw [h c hc hpend]
        simp
      omega

/-- C3 counterexample: for the single pending case whose priority is the
unrecognized string 'banana', total_pending is 1 yet the surfaced pending
breakdown is (0, 0, 0, 0) — the breakdown record carries only the four
fixed buckets, so the case appears in no surfaced count: it is dropped
from the surfaced breakdown (the source only logs a console warning)
rather than surfaced in a distinct 'unknown' count. -/
theorem unknown_priority_dropped_from_breakdown :
    total_pending [⟨"C-1", some "new", some "banana", none⟩] = 1 ∧
    pending_breakdown [⟨"C-1", some "new", some "banana", none⟩] =
      ⟨0, 0, 0, 0⟩ := by
  decide

/-- C3 (amended): a pending case whose lower-cased, trimmed priority is
not one of {vip, urgent, normal, low} — a missing priority included — is
still counted in total_pending, is never merged into one of the four fixed
buckets (each bucket counts exactly the pending cases whose normalised
priority equals its own key), and never causes the aggregation to throw
(the embedded aggregation is a total function); but it is not surfaced in
the breakdown: the four surfaced bucket values fall short of total_pending
by exactly the number of unknown-priority pending cases, which appear in
no surfaced count. -/
theorem unknown_priority_accounting (cases : List AggCase) :
    (pending_breakdown cases).vip =
      cases.countP (fun c => isPendingCase c && keyIs "vip" c) ∧
    (pending_breakdown cases).urgent =
      cases.countP (fun c => isPendingCase c && keyIs "urgent" c) ∧
    (pending_breakdown cases).normal =
      cases.countP (fun c => isPendingCase c && keyIs "normal" c) ∧
    (pending_breakdown cases).low =
      cases.countP (fun c => isPendingCase c && keyIs "low" c) ∧
    breakdownSum (pending_breakdown cases) +
      cases.countP (fun c => isPendingCase c && !recognizedPriority c) =
      total_pending cases := by
  have hf := pending_breakdown_fields cases
  refine ⟨hf.1, hf.2.1, hf.2.2.1, hf.2.2.2, ?_⟩
  rw [breakdownSum_pending_breakdown, total_pending_eq_countP]
  exact countP_and_add_countP_and_not isPendingCase recognizedPriority cases

lemma map_getD_filter_eq_filterMap (l : List PerfCase) :
    (l.filter (fun c => match c.response_time_minutes with
        | some v => decide (v > 0)
        | none => false)).map (fun c => c.response_time_minutes.getD 0)
      = l.filterMap (fun c => match c.response_time_minutes with
        | some v => if 0 < v then some v else none
        | none => none) := by
  induction l with
  | nil => rfl
  | cons c l ih =>
    simp only [List.filter_cons, List.filterMap_cons]
    rcases hrt : c.response_time_minutes with _ | v
    · simp [hrt, ih]
    · by_cases hv : 0 < v
      · simp [hrt, hv, ih]
      · simp [hrt, hv, ih]

lemma foldl_add_eq_sum (l : List ℚ) (a : ℚ) : l.foldl (· + ·) a = a + l.sum := by
  induction l generalizing a with
  | nil => simp
  | cons x xs ih =>
    simp only [List.foldl_cons, List.sum_cons, ih]
    ring

/-- C7: the Agent Performance Calculator's avg_response_time equals the
arithmetic mean of the positive response_time_minutes values across all of
that agent's cases (the computation has no today restriction), and is
`none` — not zero — when the agent has no case with a positive
response_time_minutes. -/
theorem avg_response_time_spec (agentId : String) (cases : List PerfCase) :
    avg_response_time agentId cases =
      if specPositiveResponseTimes agentId cases = [] then none
      else some ((specPositiveResponseTimes agentId cases).sum /
        ((specPositiveResponseTimes agentId cases).length : ℚ)) := by
  have he : allResponseTimes agentId cases = specPositiveResponseTimes agentId cases := by
    unfold allResponseTimes specPositiveResponseTimes agentCases
    exact map_getD_filter_eq_filterMap _
  unfold avg_response_time
  rw [he]
  rcases hl : specPositiveResponseTimes agentId cases with _ | ⟨x, xs⟩
  · simp
  · simp [foldl_add_eq_sum]

/-- Strict lexicographic order on calendar dates. -/
def dateLt (a b : Date) : Prop :=
  a.year < b.year ∨
    (a.year = b.year ∧ (a.month < b.month ∨ (a.month = b.month ∧ a.day < b.day)))

lemma dateLt_nextDay (d : Date) : dateLt d (nextDay d) := by
  unfold dateLt nextDay
  split_ifs <;> simp

lemma dateLt_trans {a b c : Date} (h1 : dateLt a b) (h2 : dateLt b c) : dateLt a c := by
  unfold dateLt at *
  omega

lemma dateLt_addDays (d : Date) (i k : Nat) :
    dateLt (addDays d i) (addDays d (i + k + 1)) := by
  induction k with
  | zero => exact dateLt_nextDay (addDays d i)
  | succ k ih => exact dateLt_trans ih (dateLt_nextDay (addDays d (i + k + 1)))

lemma addDays_ne_of_lt (d : Date) {i j : Nat} (h : i < j) :
    addDays d i ≠ addDays d j := by
  intro heq
  obtain ⟨k, rfl⟩ : ∃ k, j = i + k + 1 := ⟨j - i - 1, by omega⟩
  have hlt := dateLt_addDays d i k
  rw [heq] at hlt
  unfold dateLt at hlt
  omega

/-- C6: a prepended case adds exactly 1 to the created-count (resp.
resolved-count) of precisely those buckets whose calendar-date string is a
prefix of its created_at (resp. resolved_at) timestamp — i.e. the buckets
whose calendar date equals the timestamp's UTC date portion — and 0 to
every other bucket; the n bucket dates of a window are pairwise distinct
calendar days, so a date-portion match singles out one bucket; a case
matching no bucket date (its UTC date falls outside [start, start+n))
contributes to no bucket — silently, prepending it leaves the bucket list
unchanged; and concretely, with start = 2024-01-01 and n = 7, a single
case created 2024-01-03T10:00Z gives the 2024-01-03 bucket created-count 1
and all other buckets 0, while a case created 2024-01-10 leaves every
bucket at 0. -/
theorem timeline_bucket_assignment (start : Date) (n : Nat) (cases : List TimelineCase)
    (c : TimelineCase) :
    (∀ i, i < n →
      (timelineBuckets start n (c :: cases)).getD i (0, 0) =
        (((timelineBuckets start n cases).getD i (0, 0)).1 +
            (if createdOn (isoDateString (addDays start i)) c then 1 else 0),
         ((timelineBuckets start n cases).getD i (0, 0)).2 +
            (if resolvedOn (isoDateString (addDays start i)) c then 1 else 0))) ∧
    (∀ i j, i < j → j < n → addDays start i ≠ addDays start j) ∧
    ((∀ i, i < n → createdOn (isoDateString (addDays start i)) c = false ∧
        resolvedOn (isoDateString (addDays start i)) c = false) →
      timelineBuckets start n (c :: cases) = timelineBuckets start n cases) ∧
    timelineBuckets ⟨2024, 1, 1⟩ 7 [⟨"2024-01-03T10:00:00Z", none⟩] =
      [(0, 0), (0, 0), (1, 0), (0, 0), (0, 0), (0, 0), (0, 0)] ∧
    timelineBuckets ⟨2024, 1, 1⟩ 7 [⟨"2024-01-10T00:00:00Z", none⟩] =
      [(0, 0), (0, 0), (0, 0), (0, 0), (0, 0), (0, 0), (0, 0)] := by
  refine ⟨?_, ?_, ?_, by decide, by decide⟩
  · intro i hi
    have hb : ∀ l : List TimelineCase, (timelineBuckets start n l).getD i (0, 0) =
        ((l.filter (createdOn (isoDateString (addDays start i)))).length,
         (l.filter (resolvedOn (isoDateString (addDays start i)))).length) := by
      intro l
      unfold timelineBuckets
      rw [List.getD_eq_getElem?_getD, List.getElem?_map, List.getElem?_range hi]
      rfl
    rw [hb, hb]
    cases h1 : createdOn (isoDateString (addDays start i)) c <;>
      cases h2 : resolvedOn (isoDateString (addDays start i)) c <;>
        simp [List.filter_cons, h1, h2]
  · intro i j hij hjn
    exact addDays_ne_of_lt start hij
  · intro h
    unfold timelineBuckets
    refine List.map_congr_left ?_
    intro i hi
    rw [List.mem_range] at hi
    have hc := h i hi
    simp [List.filter_cons, hc.1, hc.2]

/-- C6 witness: the case created 2024-01-10 matches none of the 7 bucket
date strings of the window starting 2024-01-01, so prepending it to a
batch changes no bucket count. -/
theorem timeline_bucket_assignment_witness :
    timelineBuckets ⟨2024, 1, 1⟩ 7 [⟨"2024-01-10T00:00:00Z", none⟩] =
      timelineBuckets ⟨2024, 1, 1⟩ 7 [] :=
  (timeline_bucket_assignment ⟨2024, 1, 1⟩ 7 []
    ⟨"2024-01-10T00:00:00Z", none⟩).2.2.1 (by decide)

end EmailDashboard
